import Mathlib

/-!
Verification of the DragonSwap swap-quoting core of the kaia-mcp server.

The definitions below are a shallow embedding of src/src/agent/wallet.ts
(getSwapQuote, calculateQuoteFromPool, calculateAmountOutFromSqrtPrice,
selectBestQuote, calculateLiquidityScore, calculatePriceImpact,
getOptimalFeeTiers, categorizeTradeSize, parseTokenSymbol) together with the
token/fee-tier tables of src/src/config.ts.

Modelling conventions:
* JavaScript double-precision arithmetic is modelled bit-faithfully:
  `roundDouble` rounds a rational to the nearest binary64 value
  (round-to-nearest, ties-to-even; overflow/subnormal thresholds are outside
  every range in scope), and every JS arithmetic operation on doubles
  (`Number(bigint)` conversions, `parseFloat` of an exact decimal string,
  each `+ - * /`) is an exact rational operation followed by `roundDouble`.
  `Math.pow(10, k)` is modelled as the correctly rounded power (exact for
  the non-negative exponents in scope). JS division by zero yields Infinity
  and a subsequent `BigInt(Math.floor ...)` throws; the model's `/ 0 = 0`
  convention stands in for that crash, which no claim in scope exercises.
* Chain I/O (`getPoolInfo`, ERC-20 `decimals()`) is modelled by oracle
  function parameters; pool state is the `PoolInfo` record the code reads.
* `BigInt` division truncates towards zero, modelled by `Int.tdiv`.
-/

namespace KaiaMcp

/-- Round-to-nearest-integer, ties to even: the rounding used at the
significand of an IEEE-754 binary64 operation. -/
def rne (x : ℚ) : ℤ :=
  if x - ⌊x⌋ < 1/2 then ⌊x⌋
  else if 1/2 < x - ⌊x⌋ then ⌊x⌋ + 1
  else if ⌊x⌋ % 2 = 0 then ⌊x⌋ else ⌊x⌋ + 1

/-- Nearest binary64 value of a positive rational (no overflow/subnormal
handling; all quantities in scope lie well inside the normal range). -/
def roundDoublePos (q : ℚ) : ℚ :=
  (rne (q * (2:ℚ) ^ (52 - Int.log 2 q)) : ℚ) * (2:ℚ) ^ (Int.log 2 q - 52)

/-- Nearest binary64 value of a rational. -/
def roundDouble (q : ℚ) : ℚ :=
  if 0 < q then roundDoublePos q
  else if q < 0 then -roundDoublePos (-q)
  else 0

/-- wallet.ts getSwapQuote: `const slippageMultiplier = (10000 - slippage) / 10000`
(a JavaScript double; the division is rounded). -/
def slippageMultiplier (slippage : ℕ) : ℚ :=
  roundDouble (((10000:ℚ) - (slippage:ℚ)) / 10000)

/-- wallet.ts getSwapQuote: `BigInt(Math.floor(slippageMultiplier * 10000))`
(the multiplication is a double operation, hence rounded before flooring). -/
def jsSlippageFactor (slippage : ℕ) : ℤ :=
  ⌊roundDouble (slippageMultiplier slippage * 10000)⌋

/-- wallet.ts getSwapQuote:
`(BigInt(bestQuote.amountOut) * BigInt(Math.floor(slippageMultiplier * 10000))) / 10000n`.
BigInt division truncates towards zero. -/
def applyMinimumOut (amountOut : ℤ) (slippage : ℕ) : ℤ :=
  Int.tdiv (amountOut * jsSlippageFactor slippage) 10000

/-- JavaScript `Math.pow(10, k)`: correctly rounded decimal power (exact for
the 0 ≤ k ≤ 22 arising from real token decimals). -/
def jsPow10 (k : ℤ) : ℚ := roundDouble ((10:ℚ) ^ k)

/-- wallet.ts calculateAmountOutFromSqrtPrice, translated line by line in
binary64: `Number(sqrtPriceX96) / Number(Q96)` with both conversions and the
division rounded, the squaring, rescalings and conversions each rounded, and
the final `BigInt(Math.floor(...))` as the floor of the last double. -/
def calculateAmountOutFromSqrtPrice (sqrtPriceX96 : ℕ) (amountIn : ℕ)
    (tokenInDecimals tokenOutDecimals : ℕ) (isToken0Input : Bool) : ℤ :=
  let sqrtPrice : ℚ :=
    roundDouble (roundDouble (sqrtPriceX96 : ℚ) / roundDouble ((2:ℚ) ^ (96:ℕ)))
  let priceRaw : ℚ := roundDouble (sqrtPrice * sqrtPrice)
  let token0Decimals : ℕ := if isToken0Input then tokenInDecimals else tokenOutDecimals
  let token1Decimals : ℕ := if isToken0Input then tokenOutDecimals else tokenInDecimals
  let priceHuman : ℚ :=
    roundDouble (priceRaw * jsPow10 ((token0Decimals : ℤ) - (token1Decimals : ℤ)))
  let amountInHuman : ℚ :=
    roundDouble (roundDouble (amountIn : ℚ) / jsPow10 (tokenInDecimals : ℤ))
  let amountOutHuman : ℚ :=
    if isToken0Input then roundDouble (amountInHuman * priceHuman)
    else roundDouble (amountInHuman / priceHuman)
  ⌊roundDouble (amountOutHuman * jsPow10 (tokenOutDecimals : ℤ))⌋

/-- The quote algorithm exactly as the specification words it (§4.2 of the
spec / claim C1), over exact rationals: `priceRaw = (sqrtPriceX96 / 2^96)^2`;
`priceHuman = priceRaw * 10^(token0Decimals - token1Decimals)` over the pool
token decimals; `amountInHuman = amountInRaw / 10^tokenInDecimals`;
multiply (token0 input) or divide (token1 input) by `priceHuman`; floor back
into `tokenOutDecimals` raw units. -/
def specQuoteAlgorithm (sqrtPriceX96 : ℕ) (amountInRaw : ℕ)
    (token0Decimals token1Decimals : ℕ) (tokenInDecimals tokenOutDecimals : ℕ)
    (inputIsToken0 : Bool) : ℤ :=
  let priceRaw : ℚ := ((sqrtPriceX96 : ℚ) / (2:ℚ) ^ (96:ℕ)) ^ 2
  let priceHuman : ℚ := priceRaw * (10:ℚ) ^ ((token0Decimals : ℤ) - (token1Decimals : ℤ))
  let amountInHuman : ℚ := (amountInRaw : ℚ) / (10:ℚ) ^ tokenInDecimals
  let amountOutHuman : ℚ :=
    if inputIsToken0 then amountInHuman * priceHuman else amountInHuman / priceHuman
  ⌊amountOutHuman * (10:ℚ) ^ tokenOutDecimals⌋

/-- The same spec algorithm evaluated the way the program actually evaluates
it: in binary64, inputs converted to doubles and every arithmetic step
rounded to the nearest double. -/
def specQuoteAlgorithmFP (sqrtPriceX96 : ℕ) (amountInRaw : ℕ)
    (token0Decimals token1Decimals : ℕ) (tokenInDecimals tokenOutDecimals : ℕ)
    (inputIsToken0 : Bool) : ℤ :=
  let priceRaw : ℚ :=
    roundDouble ((roundDouble (roundDouble (sqrtPriceX96 : ℚ)
      / roundDouble ((2:ℚ) ^ (96:ℕ)))) ^ 2)
  let priceHuman : ℚ :=
    roundDouble (priceRaw * jsPow10 ((token0Decimals : ℤ) - (token1Decimals : ℤ)))
  let amountInHuman : ℚ :=
    roundDouble (roundDouble (amountInRaw : ℚ) / jsPow10 (tokenInDecimals : ℤ))
  let amountOutHuman : ℚ :=
    if inputIsToken0 then roundDouble (amountInHuman * priceHuman)
    else roundDouble (amountInHuman / priceHuman)
  ⌊roundDouble (amountOutHuman * jsPow10 (tokenOutDecimals : ℤ))⌋

/-! ## Token and fee-tier tables (src/src/config.ts) -/

/-- config.ts `SWAP_TOKENS`: symbol → address table, as an association list in
source order. -/
def SWAP_TOKENS : List (String × String) :=
  [ ("KAIA", "0x0000000000000000000000000000000000000000"),
    ("WKAIA", "0x19aac5f612f524b754ca7e7c41cbfa2e981a4432"),
    ("WKAI", "0x19aac5f612f524b754ca7e7c41cbfa2e981a4432"),
    ("USDT_OFFICIAL", "0xd077a400968890eacc75cdc901f0356c943e4fdb"),
    ("USDT_WORMHOLE", "0x5c13e303a62fc5dedf5b52d66873f2e59fedadc2"),
    ("USDT", "0xd077a400968890eacc75cdc901f0356c943e4fdb"),
    ("BORA", "0x02cbE46fB8A1F579254a9B485788f2D86Cad51aa"),
    ("SIX", "0xEf82b1C6A550e730D8283E1eDD4977cd01FAF435"),
    ("MBX", "0xD068c52d81f4409B9502dA926aCE3301cc41f623"),
    ("STAKED_KAIA", "0x42952B873ed6f7f0A7E4992E2a9818E3A9001995"),
    ("RKLAY", "0xf898c138f9c8825cef83ca75535ed77100497296") ]

/-- config.ts `FEE_TIERS`: LOWEST/LOW/MEDIUM/HIGH/HIGHEST. -/
def FEE_TIERS_LOWEST : ℕ := 100
def FEE_TIERS_LOW : ℕ := 500
def FEE_TIERS_MEDIUM : ℕ := 1000
def FEE_TIERS_HIGH : ℕ := 3000
def FEE_TIERS_HIGHEST : ℕ := 10000

/-- JavaScript `toUpperCase()` on the ASCII strings in scope, modelled on the
character list. -/
def jsToUpper (s : String) : String := String.mk (s.data.map Char.toUpper)

/-- JavaScript `toLowerCase()` on the ASCII strings in scope. -/
def jsToLower (s : String) : String := String.mk (s.data.map Char.toLower)

/-- JavaScript `startsWith('0x')`. -/
def jsStartsWith0x (s : String) : Bool := s.data.take 2 == ['0', 'x']

/-- JavaScript `.length` (UTF-16 units; code units = characters for the ASCII
inputs in scope). -/
def jsLength (s : String) : ℕ := s.data.length

/-- wallet.ts parseTokenSymbol: uppercase symbol table lookup, else accept any
string that starts with "0x" and has length 42, else fail
("Invalid token address or symbol"). `none` models the throw. -/
def parseTokenSymbol (token : String) : Option String :=
  match SWAP_TOKENS.lookup (jsToUpper token) with
  | some addr => some addr
  | none =>
      if jsStartsWith0x token ∧ jsLength token = 42 then some token else none

/-! ## Pool state and quotes -/

/-- The pool fields getPoolInfo reads from the chain (factory getPool +
token0/token1/fee/liquidity/slot0 multicall). -/
structure PoolInfo where
  address : String
  token0 : String
  token1 : String
  fee : ℕ
  liquidity : ℕ
  sqrtPriceX96 : ℕ
  tick : ℤ

/-- viem `parseUnits(amountIn, decimals)`: human amount into raw smallest
units. -/
def parseUnitsQ (amount : ℚ) (decimals : ℕ) : ℕ :=
  (⌊amount * (10:ℚ) ^ decimals⌋).toNat

/-- The object calculateQuoteFromPool returns (route flattened to the single
pool it always contains). -/
structure Quote where
  tokenIn : String
  tokenOut : String
  amountIn : ℕ
  amountOut : ℤ
  amountInFormatted : ℚ
  amountOutFormatted : ℚ
  poolAddress : String
  poolLiquidity : ℕ

/-- Error taxonomy of the swap-quote path; each constructor stands for one
`throw new Error(...)` site in wallet.ts. -/
inductive SwapError where
  | poolNotExist (fee : ℕ)
  | noLiquidity (fee : ℕ)
  | noPools
  | noQuotes
  | invalidToken (token : String)
deriving Repr

/-- wallet.ts calculateQuoteFromPool. `getPool` is the getPoolInfo chain
oracle (null models both a missing pool and any read error); `decimalsOf` is
the getSwapTokenDecimals oracle. -/
def calculateQuoteFromPool (decimalsOf : String → ℕ)
    (getPool : String → String → ℕ → Option PoolInfo)
    (tokenIn tokenOut : String) (amountIn : ℚ) (fee : ℕ) :
    Except SwapError Quote :=
  match getPool tokenIn tokenOut fee with
  | none => .error (.poolNotExist fee)
  | some poolInfo =>
    if poolInfo.liquidity = 0 then .error (.noLiquidity fee)
    else
      let tokenInDecimals := decimalsOf tokenIn
      let tokenOutDecimals := decimalsOf tokenOut
      let amountInWei := parseUnitsQ amountIn tokenInDecimals
      let isToken0Input := jsToLower tokenIn == jsToLower poolInfo.token0
      let amountOutWei := calculateAmountOutFromSqrtPrice poolInfo.sqrtPriceX96
        amountInWei tokenInDecimals tokenOutDecimals isToken0Input
      .ok { tokenIn := tokenIn
            tokenOut := tokenOut
            amountIn := amountInWei
            amountOut := amountOutWei
            amountInFormatted := amountIn
            amountOutFormatted := (amountOutWei : ℚ) / (10:ℚ) ^ tokenOutDecimals
            poolAddress := poolInfo.address
            poolLiquidity := poolInfo.liquidity }

/-! ## Scoring (wallet.ts liquidity-aware routing) -/

/-- wallet.ts calculateLiquidityScore in binary64:
`tradeSizeRatio = Number(amountInWei) / Number(poolLiquidity)` then
`1 / (1 + tradeSizeRatio * 10)`, each conversion and operation rounded;
zero for an empty pool. -/
def calculateLiquidityScore (quote : Quote) (amountInWei : ℕ) : ℚ :=
  if quote.poolLiquidity = 0 then 0
  else
    let tradeSizeRatio : ℚ :=
      roundDouble (roundDouble (amountInWei : ℚ) / roundDouble (quote.poolLiquidity : ℚ))
    roundDouble (1 / roundDouble (1 + roundDouble (tradeSizeRatio * 10)))

/-- wallet.ts calculatePriceImpact in binary64:
`Math.min((tradeSize/(tradeSize+liquidity))*100, 100)` with the conversions,
the sum, the division and the scaling each rounded; 100 for an empty pool. -/
def calculatePriceImpact (quote : Quote) (amountInWei : ℕ) : ℚ :=
  if quote.poolLiquidity = 0 then 100
  else
    let tradeSize : ℚ := roundDouble (amountInWei : ℚ)
    let liquidity : ℚ := roundDouble (quote.poolLiquidity : ℚ)
    min (roundDouble (roundDouble (tradeSize / roundDouble (tradeSize + liquidity)) * 100))
      100

/-- The candidate record accumulated per fee tier in getSwapQuote:
`{...quote, liquidityScore, feeTier, priceImpact}`. -/
structure ScoredQuote extends Quote where
  liquidityScore : ℚ
  feeTier : ℕ
  priceImpact : ℚ

/-- wallet.ts selectBestQuote combined score of one candidate in binary64,
given the (double) maximum output across all candidates:
`outputScore*0.4 + liquidityScore*0.3 + (1-priceImpact/100)*0.2 + (1-feeTier/10000)*0.1`
with `outputScore = parseFloat(amountOutFormatted) / maxOutput`; the weight
literals 0.4/0.3/0.2/0.1 are themselves the nearest doubles, and the sums
associate to the left as JavaScript evaluates them. -/
def combinedScore (maxOutput : ℚ) (q : ScoredQuote) : ℚ :=
  let outputScore : ℚ := roundDouble (roundDouble q.amountOutFormatted / maxOutput)
  let priceImpactPenalty : ℚ := roundDouble (q.priceImpact / 100)
  let feePenalty : ℚ := roundDouble ((q.feeTier : ℚ) / 10000)
  roundDouble (roundDouble (roundDouble
    (roundDouble (outputScore * roundDouble (0.4:ℚ))
      + roundDouble (q.liquidityScore * roundDouble (0.3:ℚ)))
    + roundDouble (roundDouble (1 - priceImpactPenalty) * roundDouble (0.2:ℚ)))
    + roundDouble (roundDouble (1 - feePenalty) * roundDouble (0.1:ℚ)))

/-- wallet.ts selectBestQuote: empty list throws, a single candidate is
returned unchanged, otherwise candidates are scored (maxOutput is
`Math.max` over the parseFloat-ed formatted outputs, i.e. over their nearest
doubles) and reduced keeping the current best unless the challenger scores
strictly higher (so the first best wins ties). -/
def selectBestQuote (quotes : List ScoredQuote) : Except SwapError ScoredQuote :=
  match quotes with
  | [] => .error .noQuotes
  | [q] => .ok q
  | q :: r :: rest =>
    let all := q :: r :: rest
    let maxOutput := (all.map fun x => roundDouble x.amountOutFormatted).foldl max
      (roundDouble q.amountOutFormatted)
    let scoredQuotes := all.map fun x => (x, combinedScore maxOutput x)
    let best := (scoredQuotes.tail).foldl
      (fun best current => if best.2 < current.2 then current else best)
      (q, combinedScore maxOutput q)
    .ok best.1

/-! ## Fee-tier strategy (wallet.ts) -/

/-- wallet.ts categorizeTradeSize: human-amount thresholds 10/100/1000/10000. -/
def categorizeTradeSize (amountInWei : ℕ) (amountInDecimals : ℕ) : String :=
  let amountInHuman : ℚ := (amountInWei : ℚ) / (10:ℚ) ^ amountInDecimals
  if amountInHuman < 10 then "micro"
  else if amountInHuman < 100 then "small"
  else if amountInHuman < 1000 then "medium"
  else if amountInHuman < 10000 then "large"
  else "whale"

/-- wallet.ts getOptimalFeeTiers: probe order per trade-size category. -/
def getOptimalFeeTiers (amountInWei : ℕ) (amountInDecimals : ℕ) : List ℕ :=
  let c := categorizeTradeSize amountInWei amountInDecimals
  if c = "micro" then
    [FEE_TIERS_LOWEST, FEE_TIERS_LOW, FEE_TIERS_MEDIUM, FEE_TIERS_HIGH, FEE_TIERS_HIGHEST]
  else if c = "small" then
    [FEE_TIERS_LOW, FEE_TIERS_MEDIUM, FEE_TIERS_LOWEST, FEE_TIERS_HIGH, FEE_TIERS_HIGHEST]
  else if c = "medium" then
    [FEE_TIERS_MEDIUM, FEE_TIERS_HIGH, FEE_TIERS_LOW, FEE_TIERS_LOWEST, FEE_TIERS_HIGHEST]
  else if c = "large" then
    [FEE_TIERS_HIGH, FEE_TIERS_MEDIUM, FEE_TIERS_HIGHEST, FEE_TIERS_LOW, FEE_TIERS_LOWEST]
  else
    [FEE_TIERS_HIGHEST, FEE_TIERS_HIGH, FEE_TIERS_MEDIUM, FEE_TIERS_LOW, FEE_TIERS_LOWEST]

/-! ## getSwapQuote orchestration (wallet.ts) -/

/-- One iteration of getSwapQuote's fee-tier loop: the try/catch around
calculateQuoteFromPool plus the `{...quote, liquidityScore, feeTier,
priceImpact}` push; `none` is the silently-skipped tier. -/
def tierCandidate (decimalsOf : String → ℕ)
    (getPool : String → String → ℕ → Option PoolInfo)
    (tokenInAddress tokenOutAddress : String) (amountIn : ℚ)
    (amountInWei : ℕ) (fee : ℕ) : Option ScoredQuote :=
  (calculateQuoteFromPool decimalsOf getPool tokenInAddress tokenOutAddress amountIn fee).toOption.map
    fun quote =>
      { toQuote := quote
        liquidityScore := calculateLiquidityScore quote amountInWei
        feeTier := fee
        priceImpact := calculatePriceImpact quote amountInWei }

/-- The object getSwapQuote returns: the selected candidate's fields spread,
with the headline `amountOut` overridden by the slippage-adjusted minimum
(balance/price context fields that are pure I/O reads are omitted). -/
structure SwapQuoteResult where
  best : ScoredQuote
  amountOut : ℤ
  selectedFeeTier : ℕ
  tradeSizeCategory : String

/-- wallet.ts getSwapQuote: resolve symbols, probe prioritized fee tiers
skipping failed ones, fail when no candidate, pick the best, then override
`amountOut` with the slippage-adjusted minimum. -/
def getSwapQuoteCore (decimalsOf : String → ℕ)
    (getPool : String → String → ℕ → Option PoolInfo)
    (tokenIn tokenOut : String) (amountIn : ℚ)
    (amountInDecimals : ℕ) (slippage : ℕ) :
    Except SwapError SwapQuoteResult :=
  match parseTokenSymbol tokenIn with
  | none => .error (.invalidToken tokenIn)
  | some tokenInAddress =>
    match parseTokenSymbol tokenOut with
    | none => .error (.invalidToken tokenOut)
    | some tokenOutAddress =>
      let amountInWei := parseUnitsQ amountIn amountInDecimals
      let prioritizedFeeTiers := getOptimalFeeTiers amountInWei amountInDecimals
      let quotes := prioritizedFeeTiers.filterMap
        (tierCandidate decimalsOf getPool tokenInAddress tokenOutAddress amountIn amountInWei)
      match quotes with
      | [] => .error .noPools
      | q :: rest =>
        match selectBestQuote (q :: rest) with
        | .error e => .error e
        | .ok bestQuote =>
          .ok { best := bestQuote
                amountOut := applyMinimumOut bestQuote.amountOut slippage
                selectedFeeTier := bestQuote.feeTier
                tradeSizeCategory := categorizeTradeSize amountInWei amountInDecimals }

/-- Whether an `Except` result is a success (used to observe, without
evaluating the payload, whether a modelled call throws). -/
def isOk {ε α : Type} : Except ε α → Bool
  | .ok _ => true
  | .error _ => false

/-! ## Concrete fixtures (oracles and records used to instantiate theorems) -/

/-- Fixture: a decimals oracle answering 0 for every token. -/
def testDecimals : String → ℕ := fun _ => 0

/-- Fixture: a KAIA/USDT pool at the 100 bps tier, price 1, liquidity 5. -/
def testPool : PoolInfo :=
  { address := "0xf000000000000000000000000000000000000001"
    token0 := "0x0000000000000000000000000000000000000000"
    token1 := "0xd077a400968890eacc75cdc901f0356c943e4fdb"
    fee := 100
    liquidity := 5
    sqrtPriceX96 := 79228162514264337593543950336
    tick := 0 }

/-- Fixture: pool oracle exposing `testPool` at fee 100 only. -/
def testGetPool : String → String → ℕ → Option PoolInfo :=
  fun _ _ fee => if fee = 100 then some testPool else none

/-- Fixture: the same pool with zero liquidity. -/
def testPoolZeroLiq : PoolInfo := { testPool with liquidity := 0 }

/-- Fixture: pool oracle exposing the zero-liquidity pool at fee 100. -/
def testGetPoolZeroLiq : String → String → ℕ → Option PoolInfo :=
  fun _ _ fee => if fee = 100 then some testPoolZeroLiq else none

/-- Fixture: a pool whose token0/token1 match neither test input token. -/
def testPoolOther : PoolInfo :=
  { address := "0xf000000000000000000000000000000000000002"
    token0 := "0xaaaaaaaaaaaaaaaaaaaaaaaaaaaaaaaaaaaaaaaa"
    token1 := "0xbbbbbbbbbbbbbbbbbbbbbbbbbbbbbbbbbbbbbbbb"
    fee := 100
    liquidity := 5
    sqrtPriceX96 := 79228162514264337593543950336
    tick := 0 }

/-- Fixture: pool oracle exposing `testPoolOther` at fee 100. -/
def testGetPoolOther : String → String → ℕ → Option PoolInfo :=
  fun _ _ fee => if fee = 100 then some testPoolOther else none

lemma floor_eq_int {x : ℚ} {n : ℤ} (h1 : (n:ℚ) ≤ x) (h2 : x < n + 1) : ⌊x⌋ = n := by
  rw [Int.floor_eq_iff]
  exact ⟨h1, h2⟩

lemma rne_bounds (x : ℚ) : x - 1/2 ≤ (rne x : ℚ) ∧ (rne x : ℚ) ≤ x + 1/2 := by
  have h1 : (⌊x⌋ : ℚ) ≤ x := Int.floor_le x
  have h2 : x < ⌊x⌋ + 1 := Int.lt_floor_add_one x
  unfold rne
  split
  · constructor <;> linarith
  · split
    · constructor <;> push_cast <;> linarith
    · split <;> constructor <;> push_cast <;> linarith

lemma rne_eval_lt {x : ℚ} {n : ℤ} (h1 : ⌊x⌋ = n) (h2 : x - n < 1/2) : rne x = n := by
  unfold rne
  rw [h1, if_pos h2]

lemma rne_eval_gt {x : ℚ} {n : ℤ} (h1 : ⌊x⌋ = n) (h2 : 1/2 < x - n) : rne x = n + 1 := by
  unfold rne
  rw [h1, if_neg (by linarith), if_pos h2]

lemma intLog_eq_of {q : ℚ} {e : ℤ} (h1 : (2:ℚ)^e ≤ q) (h2 : q < (2:ℚ)^(e+1)) :
    Int.log 2 q = e := by
  have hq : 0 < q := lt_of_lt_of_le (zpow_pos (by norm_num) e) h1
  have ha : e ≤ Int.log 2 q := (Int.zpow_le_iff_le_log (by norm_num) hq).mp h1
  have hb : Int.log 2 q < e + 1 := (Int.lt_zpow_iff_log_lt (by norm_num) hq).mp h2
  omega

lemma roundDouble_pos_eq {q : ℚ} (hq : 0 < q) : roundDouble q = roundDoublePos q :=
  if_pos hq

lemma roundDoublePos_eval {q : ℚ} {e m : ℤ}
    (hlog : Int.log 2 q = e) (hm : rne (q * (2:ℚ)^(52 - e)) = m) :
    roundDoublePos q = (m:ℚ) * (2:ℚ)^(e - 52) := by
  unfold roundDoublePos
  rw [hlog, hm]

lemma roundDouble_err {q : ℚ} (hq : 0 < q) :
    q - (2:ℚ)^(Int.log 2 q - 53) ≤ roundDouble q ∧
    roundDouble q ≤ q + (2:ℚ)^(Int.log 2 q - 53) := by
  rw [roundDouble_pos_eq hq]
  unfold roundDoublePos
  set e := Int.log 2 q with he
  set x := q * (2:ℚ)^(52 - e) with hx
  have hb := rne_bounds x
  have hp : (0:ℚ) < (2:ℚ)^(e - 52) := zpow_pos (by norm_num) _
  have key1 : x * (2:ℚ)^(e - 52) = q := by
    rw [hx, mul_assoc, ← zpow_add₀ (by norm_num : (2:ℚ) ≠ 0)]
    norm_num
  have key2 : (1/2 : ℚ) * (2:ℚ)^(e - 52) = (2:ℚ)^(e - 53) := by
    rw [show (1/2:ℚ) = (2:ℚ)^(-1:ℤ) by norm_num [zpow_neg],
      ← zpow_add₀ (by norm_num : (2:ℚ) ≠ 0)]
    congr 1
    omega
  constructor
  · have h := mul_le_mul_of_nonneg_right hb.1 hp.le
    have hexp : (x - 1/2) * (2:ℚ)^(e - 52) = x * (2:ℚ)^(e - 52) - (1/2) * (2:ℚ)^(e - 52) := by
      ring
    rw [hexp, key1, key2] at h
    exact h
  · have h := mul_le_mul_of_nonneg_right hb.2 hp.le
    have hexp : (x + 1/2) * (2:ℚ)^(e - 52) = x * (2:ℚ)^(e - 52) + (1/2) * (2:ℚ)^(e - 52) := by
      ring
    rw [hexp, key1, key2] at h
    exact h

lemma rne_intCast (n : ℤ) : rne ((n:ℚ)) = n := by
  unfold rne
  rw [Int.floor_intCast]
  rw [if_pos]
  norm_num

lemma floor_le_rne (x : ℚ) : ⌊x⌋ ≤ rne x := by
  unfold rne
  split
  · omega
  · split
    · omega
    · split <;> omega

lemma rne_le_floor_add_one (x : ℚ) : rne x ≤ ⌊x⌋ + 1 := by
  unfold rne
  split
  · omega
  · split
    · omega
    · split <;> omega

lemma rne_mono {x y : ℚ} (h : x ≤ y) : rne x ≤ rne y := by
  have hf : ⌊x⌋ ≤ ⌊y⌋ := Int.floor_mono h
  rcases eq_or_lt_of_le hf with heq | hlt
  · have hfr : x - ⌊x⌋ ≤ y - ⌊y⌋ := by
      rw [← heq]
      linarith
    unfold rne
    rw [← heq]
    split_ifs <;> first | omega | (exfalso; push_cast at hfr; linarith)
  · calc rne x ≤ ⌊x⌋ + 1 := rne_le_floor_add_one x
      _ ≤ ⌊y⌋ := by omega
      _ ≤ rne y := floor_le_rne y

lemma roundDouble_zero : roundDouble 0 = 0 := by
  unfold roundDouble
  norm_num

/-- A positive rational representable in 53 significand bits at its own
binade rounds to itself. -/
lemma roundDouble_exact {q : ℚ} {e : ℤ} (h1 : (2:ℚ)^e ≤ q) (h2 : q < (2:ℚ)^(e+1))
    (hrep : ∃ m : ℤ, (m:ℚ) = q * (2:ℚ)^(52 - e)) : roundDouble q = q := by
  have hq : 0 < q := lt_of_lt_of_le (zpow_pos (by norm_num) e) h1
  obtain ⟨m, hm⟩ := hrep
  rw [roundDouble_pos_eq hq,
    roundDoublePos_eval (intLog_eq_of h1 h2) (m := m) (by rw [← hm]; exact rne_intCast m)]
  rw [hm, mul_assoc, ← zpow_add₀ (by norm_num : (2:ℚ) ≠ 0)]
  norm_num

lemma roundDouble_pos {q : ℚ} (h : 0 < q) : 0 < roundDouble q := by
  have := (roundDouble_err h).1
  have herr : (2:ℚ)^(Int.log 2 q - 53) < q := by
    calc (2:ℚ)^(Int.log 2 q - 53) < 2^(Int.log 2 q) := by
          apply zpow_lt_zpow_right₀ (by norm_num)
          omega
      _ ≤ q := Int.zpow_log_le_self (by norm_num) h
  linarith

lemma roundDouble_nonneg {q : ℚ} (h : 0 ≤ q) : 0 ≤ roundDouble q := by
  rcases eq_or_lt_of_le h with heq | hlt
  · rw [← heq, roundDouble_zero]
  · exact le_of_lt (roundDouble_pos hlt)

lemma roundDouble_le_zpow_succ {q : ℚ} (h : 0 < q) :
    roundDouble q ≤ (2:ℚ)^(Int.log 2 q + 1) := by
  rw [roundDouble_pos_eq h]
  unfold roundDoublePos
  set e := Int.log 2 q with he
  have hx : q * (2:ℚ)^(52 - e) < (2:ℚ)^(53:ℤ) := by
    have hq2 : q < (2:ℚ)^(e + 1) := Int.lt_zpow_succ_log_self (by norm_num) q
    calc q * (2:ℚ)^(52 - e) < (2:ℚ)^(e+1) * (2:ℚ)^(52 - e) := by
          exact mul_lt_mul_of_pos_right hq2 (zpow_pos (by norm_num) _)
      _ = (2:ℚ)^(53:ℤ) := by
          rw [← zpow_add₀ (by norm_num : (2:ℚ) ≠ 0)]
          congr 1
          omega
  have hr : (rne (q * (2:ℚ)^(52 - e)) : ℚ) ≤ (2:ℚ)^(53:ℤ) := by
    have h12 := (rne_bounds (q * (2:ℚ)^(52 - e))).2
    have hpow : ((2:ℚ)^(53:ℤ)) = 9007199254740992 := by norm_num
    rw [hpow] at hx ⊢
    have hint : rne (q * (2:ℚ)^(52 - e)) < 9007199254740992 + 1 := by
      have : (rne (q * (2:ℚ)^(52 - e)) : ℚ) < 9007199254740992 + 1 := by linarith
      exact_mod_cast this
    have : rne (q * (2:ℚ)^(52 - e)) ≤ 9007199254740992 := by omega
    exact_mod_cast this
  calc (rne (q * (2:ℚ)^(52 - e)) : ℚ) * (2:ℚ)^(e - 52)
      ≤ (2:ℚ)^(53:ℤ) * (2:ℚ)^(e - 52) :=
        mul_le_mul_of_nonneg_right hr (le_of_lt (zpow_pos (by norm_num) _))
    _ = (2:ℚ)^(e + 1) := by
        rw [← zpow_add₀ (by norm_num : (2:ℚ) ≠ 0)]
        congr 1
        omega

lemma zpow_le_roundDouble {q : ℚ} (h : 0 < q) :
    (2:ℚ)^(Int.log 2 q) ≤ roundDouble q := by
  rw [roundDouble_pos_eq h]
  unfold roundDoublePos
  set e := Int.log 2 q with he
  have hx : (2:ℚ)^(52:ℤ) ≤ q * (2:ℚ)^(52 - e) := by
    have hq1 : (2:ℚ)^e ≤ q := Int.zpow_log_le_self (by norm_num) h
    calc (2:ℚ)^(52:ℤ) = (2:ℚ)^e * (2:ℚ)^(52 - e) := by
          rw [← zpow_add₀ (by norm_num : (2:ℚ) ≠ 0)]
          congr 1
          omega
      _ ≤ q * (2:ℚ)^(52 - e) :=
          mul_le_mul_of_nonneg_right hq1 (le_of_lt (zpow_pos (by norm_num) _))
  have hr : (2:ℚ)^(52:ℤ) ≤ (rne (q * (2:ℚ)^(52 - e)) : ℚ) := by
    have h12 := (rne_bounds (q * (2:ℚ)^(52 - e))).1
    have hpow : ((2:ℚ)^(52:ℤ)) = 4503599627370496 := by norm_num
    rw [hpow] at hx ⊢
    have hint : 4503599627370496 - 1 < rne (q * (2:ℚ)^(52 - e)) := by
      have : (4503599627370496:ℚ) - 1 < (rne (q * (2:ℚ)^(52 - e)) : ℚ) := by linarith
      exact_mod_cast this
    have : (4503599627370496:ℤ) ≤ rne (q * (2:ℚ)^(52 - e)) := by omega
    exact_mod_cast this
  calc (2:ℚ)^e = (2:ℚ)^(52:ℤ) * (2:ℚ)^(e - 52) := by
        rw [← zpow_add₀ (by norm_num : (2:ℚ) ≠ 0)]
        congr 1
        omega
    _ ≤ (rne (q * (2:ℚ)^(52 - e)) : ℚ) * (2:ℚ)^(e - 52) :=
        mul_le_mul_of_nonneg_right hr (le_of_lt (zpow_pos (by norm_num) _))

lemma roundDouble_mono {x y : ℚ} (hx : 0 ≤ x) (h : x ≤ y) :
    roundDouble x ≤ roundDouble y := by
  rcases eq_or_lt_of_le hx with heq | hxpos
  · rw [← heq, roundDouble_zero]
    exact roundDouble_nonneg (le_trans hx h)
  · have hypos : 0 < y := lt_of_lt_of_le hxpos h
    have hlog : Int.log 2 x ≤ Int.log 2 y := Int.log_mono_right hxpos h
    rcases eq_or_lt_of_le hlog with heq | hlt
    · rw [roundDouble_pos_eq hxpos, roundDouble_pos_eq hypos]
      unfold roundDoublePos
      rw [← heq]
      have hmul : x * (2:ℚ)^(52 - Int.log 2 x) ≤ y * (2:ℚ)^(52 - Int.log 2 x) :=
        mul_le_mul_of_nonneg_right h (le_of_lt (zpow_pos (by norm_num) _))
      exact mul_le_mul_of_nonneg_right
        (by exact_mod_cast rne_mono hmul) (le_of_lt (zpow_pos (by norm_num) _))
    · calc roundDouble x ≤ (2:ℚ)^(Int.log 2 x + 1) := roundDouble_le_zpow_succ hxpos
        _ ≤ (2:ℚ)^(Int.log 2 y) := zpow_le_zpow_right₀ (by norm_num) (by omega)
        _ ≤ roundDouble y := zpow_le_roundDouble hypos

/-! ## Concrete evaluations of the float slippage factor -/

lemma slippageMultiplier_zero : slippageMultiplier 0 = 1 := by
  have h1 : (((10000:ℚ) - ((0:ℕ):ℚ)) / 10000) = 1 := by norm_num
  unfold slippageMultiplier
  rw [h1, roundDouble_pos_eq (by norm_num),
    roundDoublePos_eval (e := 0) (m := 4503599627370496)
      (intLog_eq_of (by norm_num) (by norm_num))
      (rne_eval_lt (floor_eq_int (by norm_num) (by norm_num)) (by norm_num))]
  norm_num [zpow_neg]

lemma jsSlippageFactor_zero : jsSlippageFactor 0 = 10000 := by
  unfold jsSlippageFactor
  rw [slippageMultiplier_zero]
  have h1 : (1:ℚ) * 10000 = 10000 := by norm_num
  rw [h1, roundDouble_pos_eq (by norm_num),
    roundDoublePos_eval (e := 13) (m := 5497558138880000)
      (intLog_eq_of (by norm_num) (by norm_num))
      (rne_eval_lt (floor_eq_int (by norm_num) (by norm_num)) (by norm_num))]
  apply floor_eq_int <;> norm_num [zpow_neg]

lemma slippageMultiplier_one :
    slippageMultiplier 1 = (9006298534815518:ℚ) * (2:ℚ)^(-53:ℤ) := by
  have h1 : (((10000:ℚ) - ((1:ℕ):ℚ)) / 10000) = 9999/10000 := by norm_num
  unfold slippageMultiplier
  rw [h1, roundDouble_pos_eq (by norm_num),
    roundDoublePos_eval (e := -1) (m := 9006298534815518)
      (intLog_eq_of (by norm_num [zpow_neg]) (by norm_num))
      (rne_eval_gt (n := 9006298534815517)
        (floor_eq_int (by norm_num) (by norm_num)) (by norm_num))]
  norm_num

lemma jsSlippageFactor_one : jsSlippageFactor 1 = 9999 := by
  unfold jsSlippageFactor
  rw [slippageMultiplier_one]
  rw [roundDouble_pos_eq (by norm_num [zpow_neg]),
    roundDoublePos_eval (e := 13) (m := 5497008383066112)
      (intLog_eq_of (by norm_num [zpow_neg]) (by norm_num [zpow_neg]))
      (rne_eval_lt (floor_eq_int (by norm_num [zpow_neg]) (by norm_num [zpow_neg]))
        (by norm_num [zpow_neg]))]
  apply floor_eq_int <;> norm_num [zpow_neg]

lemma slippageMultiplier_two :
    slippageMultiplier 2 = (9005397814890044:ℚ) * (2:ℚ)^(-53:ℤ) := by
  have h1 : (((10000:ℚ) - ((2:ℕ):ℚ)) / 10000) = 4999/5000 := by norm_num
  unfold slippageMultiplier
  rw [h1, roundDouble_pos_eq (by norm_num),
    roundDoublePos_eval (e := -1) (m := 9005397814890044)
      (intLog_eq_of (by norm_num [zpow_neg]) (by norm_num))
      (rne_eval_gt (n := 9005397814890043)
        (floor_eq_int (by norm_num) (by norm_num)) (by norm_num))]
  norm_num

lemma jsSlippageFactor_two : jsSlippageFactor 2 = 9998 := by
  unfold jsSlippageFactor
  rw [slippageMultiplier_two]
  rw [roundDouble_pos_eq (by norm_num [zpow_neg]),
    roundDoublePos_eval (e := 13) (m := 5496458627252224)
      (intLog_eq_of (by norm_num [zpow_neg]) (by norm_num [zpow_neg]))
      (rne_eval_lt (floor_eq_int (by norm_num [zpow_neg]) (by norm_num [zpow_neg]))
        (by norm_num [zpow_neg]))]
  apply floor_eq_int <;> norm_num [zpow_neg]

lemma slippageMultiplier_1810 :
    slippageMultiplier 1810 = (7376896189632872:ℚ) * (2:ℚ)^(-53:ℤ) := by
  have h1 : (((10000:ℚ) - ((1810:ℕ):ℚ)) / 10000) = 819/1000 := by norm_num
  unfold slippageMultiplier
  rw [h1, roundDouble_pos_eq (by norm_num),
    roundDoublePos_eval (e := -1) (m := 7376896189632872)
      (intLog_eq_of (by norm_num [zpow_neg]) (by norm_num))
      (rne_eval_lt (floor_eq_int (by norm_num) (by norm_num)) (by norm_num))]
  norm_num

lemma jsSlippageFactor_1810 : jsSlippageFactor 1810 = 8189 := by
  unfold jsSlippageFactor
  rw [slippageMultiplier_1810]
  rw [roundDouble_pos_eq (by norm_num [zpow_neg]),
    roundDoublePos_eval (e := 12) (m := 9005000231485439)
      (intLog_eq_of (by norm_num [zpow_neg]) (by norm_num [zpow_neg]))
      (rne_eval_lt (floor_eq_int (by norm_num [zpow_neg]) (by norm_num [zpow_neg]))
        (by norm_num [zpow_neg]))]
  apply floor_eq_int <;> norm_num [zpow_neg]

lemma slippageMultiplier_10000 : slippageMultiplier 10000 = 0 := by
  have h1 : (((10000:ℚ) - ((10000:ℕ):ℚ)) / 10000) = 0 := by norm_num
  unfold slippageMultiplier
  rw [h1]
  unfold roundDouble
  norm_num

lemma jsSlippageFactor_10000 : jsSlippageFactor 10000 = 0 := by
  unfold jsSlippageFactor
  rw [slippageMultiplier_10000]
  have h1 : (0:ℚ) * 10000 = 0 := by norm_num
  rw [h1]
  unfold roundDouble
  norm_num

/-! ## Bounds on the float slippage factor -/

/-- For every slippage below 10000 bps, the float round-trip
`Math.floor(((10000-s)/10000)*10000)` lands on `10000 - s` or one below it
(the two double roundings can lose at most `10000·2⁻⁵³ + 2⁻⁴⁰ < 1/2`). -/
lemma jsSlippageFactor_bounds (s : ℕ) (hs : s < 10000) :
    10000 - (s:ℤ) - 1 ≤ jsSlippageFactor s ∧ jsSlippageFactor s ≤ 10000 - (s:ℤ) := by
  have hsQ : (s:ℚ) ≤ 9999 := by exact_mod_cast Nat.le_of_lt_succ hs
  have hsQ0 : (0:ℚ) ≤ (s:ℚ) := Nat.cast_nonneg s
  set q1 : ℚ := ((10000:ℚ) - (s:ℚ)) / 10000 with hq1
  have hq1pos : 0 < q1 := by
    rw [hq1]
    apply div_pos
    · linarith
    · norm_num
  have hq1le : q1 ≤ 1 := by rw [hq1, div_le_one (by norm_num)]; linarith
  have hq1ge : 1/10000 ≤ q1 := by
    rw [hq1]
    gcongr
    linarith
  have he1 : Int.log 2 q1 ≤ 0 := by
    have hlt : q1 < (2:ℚ)^((0:ℤ)+1) := by
      have h2 : ((2:ℚ)^((0:ℤ)+1)) = 2 := by norm_num
      rw [h2]; linarith
    exact Int.lt_add_one_iff.mp ((Int.lt_zpow_iff_log_lt (by norm_num) hq1pos).mp hlt)
  obtain ⟨hE1a, hE1b⟩ := roundDouble_err hq1pos
  have herr1 : (2:ℚ)^(Int.log 2 q1 - 53) ≤ (2:ℚ)^(-53:ℤ) :=
    zpow_le_zpow_right₀ (by norm_num) (by omega)
  have c53 : ((2:ℚ)^(-53:ℤ)) = 1/9007199254740992 := by norm_num [zpow_neg]
  have hsm : slippageMultiplier s = roundDouble q1 := by
    unfold slippageMultiplier
    rw [hq1]
  set fl1 := roundDouble q1 with hfl1
  have hfl1a : q1 - (2:ℚ)^(-53:ℤ) ≤ fl1 := by linarith
  have hfl1b : fl1 ≤ q1 + (2:ℚ)^(-53:ℤ) := by linarith
  have hfl1pos : 0 < fl1 := by
    rw [c53] at hfl1a
    linarith
  set x2 : ℚ := fl1 * 10000 with hx2
  have hx2pos : 0 < x2 := by rw [hx2]; positivity
  have hq1mul : q1 * 10000 = (10000:ℚ) - s := by rw [hq1]; field_simp
  have hx2a : (10000:ℚ) - s - 10000 * (2:ℚ)^(-53:ℤ) ≤ x2 := by
    have h := mul_le_mul_of_nonneg_right hfl1a (show (0:ℚ) ≤ 10000 by norm_num)
    have hr : (q1 - (2:ℚ)^(-53:ℤ)) * 10000 = q1 * 10000 - (2:ℚ)^(-53:ℤ) * 10000 := by ring
    rw [hr, hq1mul] at h
    rw [hx2]
    linarith
  have hx2b : x2 ≤ (10000:ℚ) - s + 10000 * (2:ℚ)^(-53:ℤ) := by
    have h := mul_le_mul_of_nonneg_right hfl1b (show (0:ℚ) ≤ 10000 by norm_num)
    have hr : (q1 + (2:ℚ)^(-53:ℤ)) * 10000 = q1 * 10000 + (2:ℚ)^(-53:ℤ) * 10000 := by ring
    rw [hr, hq1mul] at h
    rw [hx2]
    linarith
  have he2 : Int.log 2 x2 ≤ 13 := by
    have hlt : x2 < (2:ℚ)^((13:ℤ)+1) := by
      have h14 : ((2:ℚ)^((13:ℤ)+1)) = 16384 := by norm_num
      rw [h14]
      rw [c53] at hx2b
      linarith
    exact Int.lt_add_one_iff.mp ((Int.lt_zpow_iff_log_lt (by norm_num) hx2pos).mp hlt)
  obtain ⟨hE2a, hE2b⟩ := roundDouble_err hx2pos
  have herr2 : (2:ℚ)^(Int.log 2 x2 - 53) ≤ (2:ℚ)^(-40:ℤ) :=
    zpow_le_zpow_right₀ (by norm_num) (by omega)
  have c40 : ((2:ℚ)^(-40:ℤ)) = 1/1099511627776 := by norm_num [zpow_neg]
  have hjs : jsSlippageFactor s = ⌊roundDouble x2⌋ := by
    unfold jsSlippageFactor
    rw [hsm]
  set fl2 := roundDouble x2 with hfl2
  have hfl2a : (10000:ℚ) - s - 1/2 < fl2 := by
    rw [c53] at hx2a
    rw [c40] at herr2
    linarith
  have hfl2b : fl2 < (10000:ℚ) - s + 1/2 := by
    rw [c53] at hx2b
    rw [c40] at herr2
    linarith
  constructor
  · rw [hjs]
    apply Int.le_floor.mpr
    push_cast
    linarith
  · rw [hjs]
    have hlt : fl2 < ((10000 - (s:ℤ) + 1 : ℤ) : ℚ) := by push_cast; linarith
    have := Int.floor_lt.mpr hlt
    omega

/-- Slippage 0 is the identity on the raw amount. -/
lemma applyMinimumOut_zero (amountOut : ℤ) : applyMinimumOut amountOut 0 = amountOut := by
  unfold applyMinimumOut
  rw [jsSlippageFactor_zero]
  exact Int.mul_tdiv_cancel amountOut (by norm_num)

/-- Slippage 10000 bps zeroes the returned amount (no error is raised). -/
lemma applyMinimumOut_10000 (amountOut : ℤ) : applyMinimumOut amountOut 10000 = 0 := by
  unfold applyMinimumOut
  rw [jsSlippageFactor_10000, mul_zero]
  exact Int.zero_tdiv 10000

/-- The slippage-adjusted amount is antitone in the slippage parameter on
`[0, 10000)` for non-negative raw amounts. -/
lemma applyMinimumOut_antitone {amountOut : ℤ} (hout : 0 ≤ amountOut)
    {b1 b2 : ℕ} (h12 : b1 ≤ b2) (hb : b2 < 10000) :
    applyMinimumOut amountOut b2 ≤ applyMinimumOut amountOut b1 := by
  obtain ⟨h2a, h2b⟩ := jsSlippageFactor_bounds b2 hb
  obtain ⟨h1a, h1b⟩ := jsSlippageFactor_bounds b1 (lt_of_le_of_lt h12 hb)
  have hm : jsSlippageFactor b2 ≤ jsSlippageFactor b1 := by
    rcases Nat.eq_or_lt_of_le h12 with heq | hlt
    · rw [heq]
    · have : (b1:ℤ) < (b2:ℤ) := by exact_mod_cast hlt
      omega
  have h0 : 0 ≤ jsSlippageFactor b2 := by
    have : (b2:ℤ) ≤ 9999 := by exact_mod_cast Nat.le_of_lt_succ hb
    omega
  have hmul : amountOut * jsSlippageFactor b2 ≤ amountOut * jsSlippageFactor b1 :=
    mul_le_mul_of_nonneg_left hm hout
  have hnn : 0 ≤ amountOut * jsSlippageFactor b2 := mul_nonneg hout h0
  unfold applyMinimumOut
  rw [Int.tdiv_eq_ediv hnn (by norm_num), Int.tdiv_eq_ediv (le_trans hnn hmul) (by norm_num)]
  exact Int.ediv_le_ediv (by norm_num) hmul

/-! ## List helpers: running maximum and first-seen argmax of the reduce -/

/-- Folding the score-carrying pairs is folding the elements. -/
lemma foldl_pair_spec {α : Type} (f : α → ℚ) :
    ∀ (t : List α) (h : α),
      t.foldl (fun (b : α × ℚ) (y : α) => if b.2 < f y then (y, f y) else b) (h, f h)
        = (t.foldl (fun best cur => if f best < f cur then cur else best) h,
           f (t.foldl (fun best cur => if f best < f cur then cur else best) h)) := by
  intro t
  induction t with
  | nil => intro h; rfl
  | cons c t' ih =>
    intro h
    simp only [List.foldl_cons]
    by_cases hc : f h < f c
    · rw [if_pos hc, if_pos hc]
      exact ih c
    · rw [if_neg hc, if_neg hc]
      exact ih h

/-! ## selectBestQuote characterization -/

lemma selectBestQuote_cons_cons (q r : ScoredQuote) (rest : List ScoredQuote) (M : ℚ)
    (hM : M = ((q :: r :: rest).map fun x => roundDouble x.amountOutFormatted).foldl max
      (roundDouble q.amountOutFormatted)) :
    selectBestQuote (q :: r :: rest) =
      .ok ((r :: rest).foldl
        (fun best cur =>
          if combinedScore M best < combinedScore M cur then cur else best) q) := by
  subst hM
  have h0 : selectBestQuote (q :: r :: rest) =
      Except.ok
        (List.foldl (fun best current => if best.2 < current.2 then current else best)
          (q, combinedScore
                (List.foldl max (roundDouble q.amountOutFormatted)
                  (List.map (fun x => roundDouble x.amountOutFormatted) (q :: r :: rest))) q)
          (List.map (fun x =>
              (x, combinedScore
                    (List.foldl max (roundDouble q.amountOutFormatted)
                      (List.map (fun x => roundDouble x.amountOutFormatted) (q :: r :: rest))) x))
            (r :: rest))).1 := rfl
  rw [h0, List.foldl_map]
  rw [foldl_pair_spec
    (combinedScore
      (((q :: r :: rest).map fun x => roundDouble x.amountOutFormatted).foldl max
        (roundDouble q.amountOutFormatted)))
    (r :: rest) q]

lemma selectBestQuote_of_ne_nil (l : List ScoredQuote) (h : l ≠ []) :
    ∃ b, selectBestQuote l = .ok b := by
  match l with
  | [] => exact absurd rfl h
  | [q] => exact ⟨q, rfl⟩
  | q :: r :: rest => exact ⟨_, selectBestQuote_cons_cons q r rest _ rfl⟩

/-! ## getSwapQuoteCore characterization -/

lemma getSwapQuoteCore_parse_left {decimalsOf getPool tokenOut amountIn amountInDecimals slippage}
    (tokenIn : String) (h : parseTokenSymbol tokenIn = none) :
    getSwapQuoteCore decimalsOf getPool tokenIn tokenOut amountIn amountInDecimals slippage
      = .error (.invalidToken tokenIn) := by
  unfold getSwapQuoteCore
  rw [h]

lemma getSwapQuoteCore_parse_right {decimalsOf getPool amountIn amountInDecimals slippage}
    (tokenIn tokenOut ta : String) (h1 : parseTokenSymbol tokenIn = some ta)
    (h2 : parseTokenSymbol tokenOut = none) :
    getSwapQuoteCore decimalsOf getPool tokenIn tokenOut amountIn amountInDecimals slippage
      = .error (.invalidToken tokenOut) := by
  unfold getSwapQuoteCore
  rw [h1, h2]

lemma getSwapQuoteCore_resolved {decimalsOf getPool amountIn amountInDecimals slippage}
    (tokenIn tokenOut ta tb : String) (h1 : parseTokenSymbol tokenIn = some ta)
    (h2 : parseTokenSymbol tokenOut = some tb) :
    getSwapQuoteCore decimalsOf getPool tokenIn tokenOut amountIn amountInDecimals slippage
      = match (getOptimalFeeTiers (parseUnitsQ amountIn amountInDecimals) amountInDecimals).filterMap
            (tierCandidate decimalsOf getPool ta tb amountIn
              (parseUnitsQ amountIn amountInDecimals)) with
        | [] => .error .noPools
        | q :: rest =>
          match selectBestQuote (q :: rest) with
          | .error e => .error e
          | .ok bestQuote =>
            .ok { best := bestQuote
                  amountOut := applyMinimumOut bestQuote.amountOut slippage
                  selectedFeeTier := bestQuote.feeTier
                  tradeSizeCategory := categorizeTradeSize
                    (parseUnitsQ amountIn amountInDecimals) amountInDecimals } := by
  unfold getSwapQuoteCore
  rw [h1, h2]

/-! ## Monotonicity and exactness helpers for the rounded quote pipeline -/

lemma div_mono_nonneg {a b c : ℚ} (hc : 0 ≤ c) (h : a ≤ b) : a / c ≤ b / c := by
  rcases eq_or_lt_of_le hc with heq | hcpos
  · rw [← heq]
    simp
  · exact (div_le_div_iff_of_pos_right hcpos).mpr h

lemma jsPow10_nonneg (k : ℤ) : 0 ≤ jsPow10 k :=
  roundDouble_nonneg (le_of_lt (zpow_pos (by norm_num) k))

lemma roundDouble_one : roundDouble (1:ℚ) = 1 :=
  roundDouble_exact (e := 0) (by norm_num) (by norm_num)
    ⟨4503599627370496, by norm_num⟩

lemma pipeline_mono_div {P H T : ℚ} (hP : 0 ≤ P) (hH : 0 ≤ H) (hT : 0 ≤ T)
    {a1 a2 : ℚ} (h0 : 0 ≤ a1) (h : a1 ≤ a2) :
    ⌊roundDouble (roundDouble (roundDouble (roundDouble a1 / P) / H) * T)⌋
      ≤ ⌊roundDouble (roundDouble (roundDouble (roundDouble a2 / P) / H) * T)⌋ := by
  have h1 : roundDouble a1 ≤ roundDouble a2 := roundDouble_mono h0 h
  have h1n : 0 ≤ roundDouble a1 := roundDouble_nonneg h0
  have h2 : roundDouble (roundDouble a1 / P) ≤ roundDouble (roundDouble a2 / P) :=
    roundDouble_mono (div_nonneg h1n hP) (div_mono_nonneg hP h1)
  have h2n : 0 ≤ roundDouble (roundDouble a1 / P) :=
    roundDouble_nonneg (div_nonneg h1n hP)
  have h3 : roundDouble (roundDouble (roundDouble a1 / P) / H)
      ≤ roundDouble (roundDouble (roundDouble a2 / P) / H) :=
    roundDouble_mono (div_nonneg h2n hH) (div_mono_nonneg hH h2)
  have h3n : 0 ≤ roundDouble (roundDouble (roundDouble a1 / P) / H) :=
    roundDouble_nonneg (div_nonneg h2n hH)
  exact Int.floor_mono
    (roundDouble_mono (mul_nonneg h3n hT) (mul_le_mul_of_nonneg_right h3 hT))

lemma pipeline_mono_mul {P H T : ℚ} (hP : 0 ≤ P) (hH : 0 ≤ H) (hT : 0 ≤ T)
    {a1 a2 : ℚ} (h0 : 0 ≤ a1) (h : a1 ≤ a2) :
    ⌊roundDouble (roundDouble (roundDouble (roundDouble a1 / P) * H) * T)⌋
      ≤ ⌊roundDouble (roundDouble (roundDouble (roundDouble a2 / P) * H) * T)⌋ := by
  have h1 : roundDouble a1 ≤ roundDouble a2 := roundDouble_mono h0 h
  have h1n : 0 ≤ roundDouble a1 := roundDouble_nonneg h0
  have h2 : roundDouble (roundDouble a1 / P) ≤ roundDouble (roundDouble a2 / P) :=
    roundDouble_mono (div_nonneg h1n hP) (div_mono_nonneg hP h1)
  have h2n : 0 ≤ roundDouble (roundDouble a1 / P) :=
    roundDouble_nonneg (div_nonneg h1n hP)
  have h3 : roundDouble (roundDouble (roundDouble a1 / P) * H)
      ≤ roundDouble (roundDouble (roundDouble a2 / P) * H) :=
    roundDouble_mono (mul_nonneg h2n hH) (mul_le_mul_of_nonneg_right h2 hH)
  have h3n : 0 ≤ roundDouble (roundDouble (roundDouble a1 / P) * H) :=
    roundDouble_nonneg (mul_nonneg h2n hH)
  exact Int.floor_mono
    (roundDouble_mono (mul_nonneg h3n hT) (mul_le_mul_of_nonneg_right h3 hT))

/-! ## Claims -/

/-- C1 counterexample: on the price-1 pool (`sqrtPriceX96 = 2^96`) with 18/18
decimals and a token0 input of `10^18 + 1` raw units, the program (whose
arithmetic is IEEE-754 binary64) returns `10^18`, while the specification
algorithm over exact numbers returns `10^18 + 1`: `Number(amountIn)` already
rounds the input, which exceeds `2^53`, down to `10^18`. The claimed exact
equality therefore fails. -/
theorem claim_C1_counterexample :
    calculateAmountOutFromSqrtPrice 79228162514264337593543950336 1000000000000000001
        18 18 true = 1000000000000000000 ∧
    specQuoteAlgorithm 79228162514264337593543950336 1000000000000000001
        18 18 18 18 true = 1000000000000000001 := by
  constructor
  · have hX : ((79228162514264337593543950336:ℕ):ℚ) = (2:ℚ)^(96:ℕ) := by norm_num
    have hA : ((1000000000000000001:ℕ):ℚ) = (1000000000000000001:ℚ) := by norm_num
    have h2p : roundDouble ((2:ℚ)^(96:ℕ)) = (2:ℚ)^(96:ℕ) :=
      roundDouble_exact (e := 96) (by norm_num) (by norm_num)
        ⟨4503599627370496, by norm_num [zpow_neg]⟩
    have r18exact : roundDouble ((1000000000000000000:ℚ)) = 1000000000000000000 :=
      roundDouble_exact (e := 59) (by norm_num) (by norm_num)
        ⟨7812500000000000, by norm_num [zpow_neg]⟩
    have rA : roundDouble ((1000000000000000001:ℚ)) = 1000000000000000000 := by
      rw [roundDouble_pos_eq (by norm_num),
        roundDoublePos_eval (e := 59) (m := 7812500000000000)
          (intLog_eq_of (by norm_num) (by norm_num))
          (rne_eval_lt (n := 7812500000000000)
            (floor_eq_int (by norm_num [zpow_neg]) (by norm_num [zpow_neg]))
            (by norm_num [zpow_neg]))]
      norm_num
    have hsp : roundDouble (roundDouble ((79228162514264337593543950336:ℕ):ℚ)
        / roundDouble ((2:ℚ)^(96:ℕ))) = 1 := by
      rw [hX, h2p, show ((2:ℚ)^(96:ℕ)) / ((2:ℚ)^(96:ℕ)) = 1 from by norm_num]
      exact roundDouble_one
    have hp0 : jsPow10 (((18:ℕ):ℤ) - ((18:ℕ):ℤ)) = 1 := by
      rw [show (((18:ℕ):ℤ) - ((18:ℕ):ℤ)) = 0 from by norm_num]
      unfold jsPow10
      rw [zpow_zero]
      exact roundDouble_one
    have hp18 : jsPow10 (((18:ℕ)):ℤ) = 1000000000000000000 := by
      unfold jsPow10
      rw [show ((10:ℚ)^((((18:ℕ)):ℤ))) = (1000000000000000000:ℚ) from by norm_num]
      exact r18exact
    simp only [calculateAmountOutFromSqrtPrice, if_true]
    rw [hsp, hA, rA, hp0, hp18]
    norm_num [roundDouble_one, r18exact]
  · simp only [specQuoteAlgorithm, if_true]
    apply floor_eq_int <;> norm_num

/-- C1 (amended): for every pool state with positive liquidity and every raw
input, the quote calculator computes the spec algorithm evaluated the way the
program evaluates it — in binary64, with inputs converted to doubles and each
step (square the Q96 square root, rescale by
`10^(token0Decimals - token1Decimals)` over the pool token decimals, convert
the input by `tokenInDecimals`, multiply (token0 input) or divide (token1
input), floor back into `tokenOutDecimals` raw units) correctly rounded. The
hypotheses record that the in/out decimals handed to the calculator are the
pool token decimals in swap-direction order, as the caller guarantees. -/
theorem claim_C1 (sqrtPriceX96 amountInRaw : ℕ)
    (token0Decimals token1Decimals tokenInDecimals tokenOutDecimals : ℕ)
    (inputIsToken0 : Bool) (liquidity : ℕ) (_hliq : 0 < liquidity)
    (hIn : tokenInDecimals = if inputIsToken0 then token0Decimals else token1Decimals)
    (hOut : tokenOutDecimals = if inputIsToken0 then token1Decimals else token0Decimals) :
    calculateAmountOutFromSqrtPrice sqrtPriceX96 amountInRaw tokenInDecimals
        tokenOutDecimals inputIsToken0
      = specQuoteAlgorithmFP sqrtPriceX96 amountInRaw token0Decimals token1Decimals
          tokenInDecimals tokenOutDecimals inputIsToken0 := by
  subst hIn hOut
  cases inputIsToken0
  all_goals simp only [calculateAmountOutFromSqrtPrice, specQuoteAlgorithmFP,
    Bool.false_eq_true, if_false, if_true, ← pow_two]

/-- Witness for C1 at a concrete 6- and 18-decimal token0 input on a price-1
pool. -/
theorem claim_C1_witness :
    0 < 5 ∧ (6 = if true then 6 else 18) ∧ (18 = if true then 18 else 6) ∧
    calculateAmountOutFromSqrtPrice 79228162514264337593543950336 1000000 6 18 true
      = specQuoteAlgorithmFP 79228162514264337593543950336 1000000 6 18 6 18 true :=
  ⟨by decide, by decide, by decide,
    claim_C1 79228162514264337593543950336 1000000 6 18 6 18 true 5 (by decide)
      (by decide) (by decide)⟩

/-- C8: for a fixed pool state and direction, the computed raw output is
monotonically non-decreasing in the raw input amount: every binary64 step of
the pipeline (rounding the input, dividing by the non-negative decimal powers,
multiplying or dividing by the non-negative price, flooring) is monotone, and
correctly rounding preserves order on non-negative doubles. -/
theorem claim_C8 (sqrtPriceX96 : ℕ) (tokenInDecimals tokenOutDecimals : ℕ)
    (isToken0Input : Bool) (liquidity : ℕ) (_hliq : 0 < liquidity)
    (amountInRaw1 amountInRaw2 : ℕ) (h : amountInRaw1 ≤ amountInRaw2) :
    calculateAmountOutFromSqrtPrice sqrtPriceX96 amountInRaw1 tokenInDecimals
        tokenOutDecimals isToken0Input
      ≤ calculateAmountOutFromSqrtPrice sqrtPriceX96 amountInRaw2 tokenInDecimals
          tokenOutDecimals isToken0Input := by
  have hcast : ((amountInRaw1:ℚ)) ≤ (amountInRaw2:ℚ) := by exact_mod_cast h
  cases isToken0Input
  · simp only [calculateAmountOutFromSqrtPrice, Bool.false_eq_true, if_false]
    exact pipeline_mono_div (jsPow10_nonneg _)
      (roundDouble_nonneg (mul_nonneg (roundDouble_nonneg (mul_self_nonneg _))
        (jsPow10_nonneg _)))
      (jsPow10_nonneg _) (Nat.cast_nonneg _) hcast
  · simp only [calculateAmountOutFromSqrtPrice, if_true]
    exact pipeline_mono_mul (jsPow10_nonneg _)
      (roundDouble_nonneg (mul_nonneg (roundDouble_nonneg (mul_self_nonneg _))
        (jsPow10_nonneg _)))
      (jsPow10_nonneg _) (Nat.cast_nonneg _) hcast

/-- Witness for C8 on a concrete price-1 pool, token1 input direction,
inputs 3 ≤ 7. -/
theorem claim_C8_witness :
    0 < 5 ∧ 3 ≤ 7 ∧
    calculateAmountOutFromSqrtPrice 79228162514264337593543950336 3 18 18 false
      ≤ calculateAmountOutFromSqrtPrice 79228162514264337593543950336 7 18 18 false :=
  ⟨by decide, by decide,
    claim_C8 79228162514264337593543950336 18 18 false 5 (by decide) 3 7 (by decide)⟩

/-- C2: the headline `amountOut` is claimed to be
`floor(bestRawAmountOut * (10000 - bps) / 10000)`. The code computes the
multiplier as `Math.floor(((10000 - slippage) / 10000) * 10000)` in doubles,
which at `slippage = 1810` yields 8189 instead of `10000 - 1810 = 8190`: with
`bestRawAmountOut = 10000` the code returns 8189 while the claimed formula
gives 8190. -/
theorem claim_C2 :
    applyMinimumOut 10000 1810 = 8189 ∧
    (⌊((10000:ℚ) * (10000 - 1810)) / 10000⌋ : ℤ) = 8190 := by
  constructor
  · unfold applyMinimumOut
    rw [jsSlippageFactor_1810]
    decide
  · apply floor_eq_int <;> norm_num

/-- C9 counterexample: `applyMinimumOut(out, bps)` is not strictly decreasing
in bps for out > 0: at out = 1 the values at 1 bp and 2 bps are both 0. -/
theorem claim_C9_counterexample :
    applyMinimumOut 1 0 = 1 ∧ applyMinimumOut 1 1 = 0 ∧ applyMinimumOut 1 2 = 0 := by
  refine ⟨applyMinimumOut_zero 1, ?_, ?_⟩
  · unfold applyMinimumOut
    rw [jsSlippageFactor_one]
    decide
  · unfold applyMinimumOut
    rw [jsSlippageFactor_two]
    decide

/-- C9 (amended): slippage 0 is the identity, and the adjusted amount is
non-increasing (not strictly decreasing) in bps over [0, 10000) for
non-negative amounts. -/
theorem claim_C9 :
    (∀ out : ℤ, applyMinimumOut out 0 = out) ∧
    (∀ out : ℤ, 0 ≤ out → ∀ b1 b2 : ℕ, b1 ≤ b2 → b2 < 10000 →
      applyMinimumOut out b2 ≤ applyMinimumOut out b1) :=
  ⟨applyMinimumOut_zero,
    fun _ hout _ _ h12 hb => applyMinimumOut_antitone hout h12 hb⟩

/-- Witness for C9 at out = 12345, bps 50 ≤ 100. -/
theorem claim_C9_witness :
    applyMinimumOut 5 0 = 5 ∧ (0:ℤ) ≤ 12345 ∧ 50 ≤ 100 ∧ 100 < 10000 ∧
    applyMinimumOut 12345 100 ≤ applyMinimumOut 12345 50 :=
  ⟨claim_C9.1 5, by decide, by decide, by decide,
    claim_C9.2 12345 (by decide) 50 100 (by decide) (by decide)⟩

/-- C4 counterexample: a quote request whose input token matches neither
pool token does not fail with any pair error — the calculator returns an
output amount (the claim requires InvalidPairError instead). -/
theorem claim_C4_counterexample :
    (jsToLower "0xcccccccccccccccccccccccccccccccccccccccc"
        == jsToLower testPoolOther.token0) = false ∧
    (jsToLower "0xcccccccccccccccccccccccccccccccccccccccc"
        == jsToLower testPoolOther.token1) = false ∧
    isOk (calculateQuoteFromPool testDecimals testGetPoolOther
      "0xcccccccccccccccccccccccccccccccccccccccc"
      "0xaaaaaaaaaaaaaaaaaaaaaaaaaaaaaaaaaaaaaaaa" 1 100) = true := by
  refine ⟨by decide, by decide, ?_⟩
  rfl

/-- C4 (amended): calculateQuoteFromPool performs no pair-membership check:
whenever the pool exists and has liquidity it returns a quote, with
`isToken0Input` decided by lower-case comparison against token0 only — an
input token equal to neither pool token is silently priced as a token1
input. -/
theorem claim_C4 (decimalsOf : String → ℕ)
    (getPool : String → String → ℕ → Option PoolInfo)
    (tokenIn tokenOut : String) (amountIn : ℚ) (fee : ℕ) (pool : PoolInfo)
    (hp : getPool tokenIn tokenOut fee = some pool) (hliq : pool.liquidity ≠ 0) :
    calculateQuoteFromPool decimalsOf getPool tokenIn tokenOut amountIn fee =
      .ok { tokenIn := tokenIn
            tokenOut := tokenOut
            amountIn := parseUnitsQ amountIn (decimalsOf tokenIn)
            amountOut := calculateAmountOutFromSqrtPrice pool.sqrtPriceX96
              (parseUnitsQ amountIn (decimalsOf tokenIn)) (decimalsOf tokenIn)
              (decimalsOf tokenOut) (jsToLower tokenIn == jsToLower pool.token0)
            amountInFormatted := amountIn
            amountOutFormatted := ((calculateAmountOutFromSqrtPrice pool.sqrtPriceX96
              (parseUnitsQ amountIn (decimalsOf tokenIn)) (decimalsOf tokenIn)
              (decimalsOf tokenOut) (jsToLower tokenIn == jsToLower pool.token0) : ℤ) : ℚ)
              / (10:ℚ) ^ (decimalsOf tokenOut)
            poolAddress := pool.address
            poolLiquidity := pool.liquidity } := by
  unfold calculateQuoteFromPool
  rw [hp]
  dsimp only
  rw [if_neg hliq]

/-- Witness for C4 at the mismatched-pair fixture. -/
theorem claim_C4_witness :
    testGetPoolOther "0xcccccccccccccccccccccccccccccccccccccccc"
        "0xaaaaaaaaaaaaaaaaaaaaaaaaaaaaaaaaaaaaaaaa" 100 = some testPoolOther ∧
    testPoolOther.liquidity ≠ 0 ∧
    calculateQuoteFromPool testDecimals testGetPoolOther
        "0xcccccccccccccccccccccccccccccccccccccccc"
        "0xaaaaaaaaaaaaaaaaaaaaaaaaaaaaaaaaaaaaaaaa" 1 100 =
      .ok { tokenIn := "0xcccccccccccccccccccccccccccccccccccccccc"
            tokenOut := "0xaaaaaaaaaaaaaaaaaaaaaaaaaaaaaaaaaaaaaaaa"
            amountIn := parseUnitsQ 1
              (testDecimals "0xcccccccccccccccccccccccccccccccccccccccc")
            amountOut := calculateAmountOutFromSqrtPrice testPoolOther.sqrtPriceX96
              (parseUnitsQ 1 (testDecimals "0xcccccccccccccccccccccccccccccccccccccccc"))
              (testDecimals "0xcccccccccccccccccccccccccccccccccccccccc")
              (testDecimals "0xaaaaaaaaaaaaaaaaaaaaaaaaaaaaaaaaaaaaaaaa")
              (jsToLower "0xcccccccccccccccccccccccccccccccccccccccc"
                == jsToLower testPoolOther.token0)
            amountInFormatted := 1
            amountOutFormatted := ((calculateAmountOutFromSqrtPrice
              testPoolOther.sqrtPriceX96
              (parseUnitsQ 1 (testDecimals "0xcccccccccccccccccccccccccccccccccccccccc"))
              (testDecimals "0xcccccccccccccccccccccccccccccccccccccccc")
              (testDecimals "0xaaaaaaaaaaaaaaaaaaaaaaaaaaaaaaaaaaaaaaaa")
              (jsToLower "0xcccccccccccccccccccccccccccccccccccccccc"
                == jsToLower testPoolOther.token0) : ℤ) : ℚ)
              / (10:ℚ) ^ (testDecimals "0xaaaaaaaaaaaaaaaaaaaaaaaaaaaaaaaaaaaaaaaa")
            poolAddress := testPoolOther.address
            poolLiquidity := testPoolOther.liquidity } :=
  ⟨rfl, by decide,
    claim_C4 testDecimals testGetPoolOther
      "0xcccccccccccccccccccccccccccccccccccccccc"
      "0xaaaaaaaaaaaaaaaaaaaaaaaaaaaaaaaaaaaaaaaa" 1 100 testPoolOther rfl (by decide)⟩

/-- C6: a zero-liquidity pool makes the quote calculator fail with the
no-liquidity error before any price computation — the result is the same
error for every decimals oracle (so no decimals are fetched and no amounts
converted) — and no zero-liquidity pool ever yields a candidate quote for
selection. -/
theorem claim_C6 :
    (∀ (decimalsOf decimalsOf₂ : String → ℕ)
        (getPool : String → String → ℕ → Option PoolInfo)
        (tokenIn tokenOut : String) (amountIn : ℚ) (fee : ℕ) (pool : PoolInfo),
      getPool tokenIn tokenOut fee = some pool → pool.liquidity = 0 →
        calculateQuoteFromPool decimalsOf getPool tokenIn tokenOut amountIn fee
          = .error (.noLiquidity fee) ∧
        calculateQuoteFromPool decimalsOf getPool tokenIn tokenOut amountIn fee
          = calculateQuoteFromPool decimalsOf₂ getPool tokenIn tokenOut amountIn fee) ∧
    (∀ (decimalsOf : String → ℕ) (getPool : String → String → ℕ → Option PoolInfo)
        (ta tb : String) (amountIn : ℚ) (amountInWei fee : ℕ) (sq : ScoredQuote),
      tierCandidate decimalsOf getPool ta tb amountIn amountInWei fee = some sq →
        sq.poolLiquidity ≠ 0) ∧
    (∀ (decimalsOf : String → ℕ) (getPool : String → String → ℕ → Option PoolInfo)
        (ta tb : String) (amountIn : ℚ) (amountInWei : ℕ) (tiers : List ℕ)
        (sq : ScoredQuote),
      sq ∈ tiers.filterMap (tierCandidate decimalsOf getPool ta tb amountIn amountInWei) →
        sq.poolLiquidity ≠ 0) := by
  have hTier : ∀ (decimalsOf : String → ℕ) (getPool : String → String → ℕ → Option PoolInfo)
      (ta tb : String) (amountIn : ℚ) (amountInWei fee : ℕ) (sq : ScoredQuote),
      tierCandidate decimalsOf getPool ta tb amountIn amountInWei fee = some sq →
        sq.poolLiquidity ≠ 0 := by
    intro decimalsOf getPool ta tb amountIn amountInWei fee sq h
    unfold tierCandidate at h
    rcases hc : calculateQuoteFromPool decimalsOf getPool ta tb amountIn fee with e | quote
    · rw [hc] at h
      simp [Except.toOption] at h
    · rw [hc] at h
      simp only [Except.toOption, Option.map_some'] at h
      unfold calculateQuoteFromPool at hc
      rcases hp : getPool ta tb fee with _ | pool
      · rw [hp] at hc
        exact Except.noConfusion hc
      · rw [hp] at hc
        dsimp only at hc
        by_cases hl : pool.liquidity = 0
        · rw [if_pos hl] at hc
          exact Except.noConfusion hc
        · rw [if_neg hl] at hc
          have hq : quote.poolLiquidity = pool.liquidity := by
            cases hc
            rfl
          have hsq := Option.some.inj h
          rw [← hsq]
          simpa [hq] using hl
  refine ⟨?_, hTier, ?_⟩
  · intro decimalsOf decimalsOf₂ getPool tokenIn tokenOut amountIn fee pool hp hl
    constructor
    · unfold calculateQuoteFromPool
      rw [hp]
      dsimp only
      rw [if_pos hl]
    · unfold calculateQuoteFromPool
      rw [hp]
      dsimp only
      rw [if_pos hl, if_pos hl]
  · intro decimalsOf getPool ta tb amountIn amountInWei tiers sq hmem
    obtain ⟨fee, _, hfee⟩ := List.mem_filterMap.mp hmem
    exact hTier decimalsOf getPool ta tb amountIn amountInWei fee sq hfee

/-- Witness for C6: the zero-liquidity fixture pool yields the no-liquidity
error under two different decimals oracles, and the liquidity-5 fixture
candidate has non-zero recorded liquidity. -/
theorem claim_C6_witness :
    testGetPoolZeroLiq "KAIA" "USDT" 100 = some testPoolZeroLiq ∧
    testPoolZeroLiq.liquidity = 0 ∧
    (calculateQuoteFromPool testDecimals testGetPoolZeroLiq "KAIA" "USDT" 1 100
        = .error (.noLiquidity 100) ∧
      calculateQuoteFromPool testDecimals testGetPoolZeroLiq "KAIA" "USDT" 1 100
        = calculateQuoteFromPool (fun _ => 18) testGetPoolZeroLiq "KAIA" "USDT" 1 100) ∧
    (∀ sq : ScoredQuote,
      sq ∈ ([100] : List ℕ).filterMap
        (tierCandidate testDecimals testGetPool
          "0x0000000000000000000000000000000000000000"
          "0xd077a400968890eacc75cdc901f0356c943e4fdb" 0 0) →
      sq.poolLiquidity ≠ 0) :=
  ⟨rfl, by decide,
    claim_C6.1 testDecimals (fun _ => 18) testGetPoolZeroLiq "KAIA" "USDT" 1 100
      testPoolZeroLiq rfl (by decide),
    fun sq hmem =>
      claim_C6.2.2 testDecimals testGetPool
        "0x0000000000000000000000000000000000000000"
        "0xd077a400968890eacc75cdc901f0356c943e4fdb" 0 0 [100] sq hmem⟩

/-- C10: symbol resolution succeeds exactly when the uppercased input is a key
of the SWAP_TOKENS table, or the input starts with "0x" and has length exactly
42 (hex digits are not checked — any such string is accepted as an address);
every other string makes getSwapQuote fail with the invalid-token error before
any pool lookup (the result is the same for every pool oracle). -/
theorem claim_C10 :
    (∀ token : String,
      (parseTokenSymbol token).isSome = true ↔
        ((SWAP_TOKENS.lookup (jsToUpper token)).isSome = true ∨
          (jsStartsWith0x token = true ∧ jsLength token = 42))) ∧
    parseTokenSymbol "0xZZZZZZZZZZZZZZZZZZZZZZZZZZZZZZZZZZZZZZZZ"
      = some "0xZZZZZZZZZZZZZZZZZZZZZZZZZZZZZZZZZZZZZZZZ" ∧
    (∀ token : String, parseTokenSymbol token = none →
      ∀ (decimalsOf : String → ℕ) (getPool getPool₂ : String → String → ℕ → Option PoolInfo)
        (tokenOut : String) (amountIn : ℚ) (amountInDecimals slippage : ℕ),
      getSwapQuoteCore decimalsOf getPool token tokenOut amountIn amountInDecimals slippage
          = .error (.invalidToken token) ∧
      getSwapQuoteCore decimalsOf getPool token tokenOut amountIn amountInDecimals slippage
        = getSwapQuoteCore decimalsOf getPool₂ token tokenOut amountIn amountInDecimals
            slippage) := by
  refine ⟨?_, by decide, ?_⟩
  · intro token
    unfold parseTokenSymbol
    rcases hl : SWAP_TOKENS.lookup (jsToUpper token) with _ | addr
    · simp only [hl, Option.isSome_none]
      by_cases hc : jsStartsWith0x token ∧ jsLength token = 42
      · rw [if_pos hc]
        simp [hc]
      · rw [if_neg hc]
        simp only [Option.isSome_none, Bool.false_eq_true, false_iff]
        rintro (h | h)
        · exact absurd h (by simp)
        · exact hc h
    · simp [hl]
  · intro token hnone decimalsOf getPool getPool₂ tokenOut amountIn amountInDecimals slippage
    exact ⟨getSwapQuoteCore_parse_left token hnone,
      by rw [getSwapQuoteCore_parse_left token hnone, getSwapQuoteCore_parse_left token hnone]⟩

/-- Witness for C10: "hello" resolves to no token and fails before any pool
lookup, uniformly in the pool oracle. -/
theorem claim_C10_witness :
    parseTokenSymbol "hello" = none ∧
    (getSwapQuoteCore testDecimals testGetPool "hello" "USDT" 1 18 50
        = .error (.invalidToken "hello") ∧
      getSwapQuoteCore testDecimals testGetPool "hello" "USDT" 1 18 50
        = getSwapQuoteCore testDecimals testGetPoolZeroLiq "hello" "USDT" 1 18 50) :=
  ⟨by decide,
    claim_C10.2.2 "hello" (by decide) testDecimals testGetPool testGetPoolZeroLiq
      "USDT" 1 18 50⟩

/-- C3 counterexample: a concrete quote request with slippage = 10000
succeeds and returns a quote — no InvalidSlippageError (or any validation)
exists on the path, refuting "fails before any computation". -/
theorem claim_C3_counterexample :
    isOk (getSwapQuoteCore testDecimals testGetPool "KAIA" "USDT" 0 0 10000) = true := by
  rw [getSwapQuoteCore_resolved "KAIA" "USDT"
    "0x0000000000000000000000000000000000000000"
    "0xd077a400968890eacc75cdc901f0356c943e4fdb" (by decide) (by decide)]
  have hw : parseUnitsQ 0 0 = 0 := by norm_num [parseUnitsQ]
  rw [hw]
  have htiers : getOptimalFeeTiers 0 0 = [100, 500, 1000, 3000, 10000] := by
    norm_num [getOptimalFeeTiers, categorizeTradeSize, FEE_TIERS_LOWEST, FEE_TIERS_LOW,
      FEE_TIERS_MEDIUM, FEE_TIERS_HIGH, FEE_TIERS_HIGHEST]
  rw [htiers]
  rfl

/-- C3 (amended): getSwapQuote performs no slippage validation: whether a
request succeeds is independent of the slippage parameter, and at
slippage = 10000 a successful quote carries headline amountOut 0 (instead of
the claimed InvalidSlippageError before any computation). -/
theorem claim_C3 :
    (∀ (decimalsOf : String → ℕ) (getPool : String → String → ℕ → Option PoolInfo)
        (tokenIn tokenOut : String) (amountIn : ℚ) (amountInDecimals s1 s2 : ℕ),
      isOk (getSwapQuoteCore decimalsOf getPool tokenIn tokenOut amountIn
          amountInDecimals s1)
        = isOk (getSwapQuoteCore decimalsOf getPool tokenIn tokenOut amountIn
            amountInDecimals s2)) ∧
    (∀ (decimalsOf : String → ℕ) (getPool : String → String → ℕ → Option PoolInfo)
        (tokenIn tokenOut : String) (amountIn : ℚ) (amountInDecimals : ℕ)
        (result : SwapQuoteResult),
      getSwapQuoteCore decimalsOf getPool tokenIn tokenOut amountIn amountInDecimals 10000
          = .ok result → result.amountOut = 0) := by
  constructor
  · intro d gp tin tout a dec s1 s2
    rcases h1 : parseTokenSymbol tin with _ | ta
    · rw [getSwapQuoteCore_parse_left tin h1, getSwapQuoteCore_parse_left tin h1]
    · rcases h2 : parseTokenSymbol tout with _ | tb
      · rw [getSwapQuoteCore_parse_right tin tout ta h1 h2,
          getSwapQuoteCore_parse_right tin tout ta h1 h2]
      · rw [getSwapQuoteCore_resolved tin tout ta tb h1 h2,
          getSwapQuoteCore_resolved tin tout ta tb h1 h2]
        rcases hcands : (getOptimalFeeTiers (parseUnitsQ a dec) dec).filterMap
            (tierCandidate d gp ta tb a (parseUnitsQ a dec)) with _ | ⟨q, rest⟩
        · rfl
        · dsimp only
          obtain ⟨b, hb⟩ := selectBestQuote_of_ne_nil (q :: rest) (by simp)
          rw [hb]
          rfl
  · intro d gp tin tout a dec result hok
    rcases h1 : parseTokenSymbol tin with _ | ta
    · rw [getSwapQuoteCore_parse_left tin h1] at hok
      exact Except.noConfusion hok
    · rcases h2 : parseTokenSymbol tout with _ | tb
      · rw [getSwapQuoteCore_parse_right tin tout ta h1 h2] at hok
        exact Except.noConfusion hok
      · rw [getSwapQuoteCore_resolved tin tout ta tb h1 h2] at hok
        rcases hcands : (getOptimalFeeTiers (parseUnitsQ a dec) dec).filterMap
            (tierCandidate d gp ta tb a (parseUnitsQ a dec)) with _ | ⟨q, rest⟩
        · rw [hcands] at hok
          exact Except.noConfusion hok
        · rw [hcands] at hok
          dsimp only at hok
          obtain ⟨b, hb⟩ := selectBestQuote_of_ne_nil (q :: rest) (by simp)
          rw [hb] at hok
          have hres := Except.ok.inj hok
          rw [← hres]
          exact applyMinimumOut_10000 b.amountOut

/-- Witness for C3: slippage 10000 and 50 agree on success at the concrete
fixture, and the concrete slippage-10000 quote has amountOut 0. -/
theorem claim_C3_witness :
    isOk (getSwapQuoteCore testDecimals testGetPool "KAIA" "USDT" 0 0 10000)
      = isOk (getSwapQuoteCore testDecimals testGetPool "KAIA" "USDT" 0 0 50) ∧
    (∀ result : SwapQuoteResult,
      getSwapQuoteCore testDecimals testGetPool "KAIA" "USDT" 0 0 10000 = .ok result →
        result.amountOut = 0) :=
  ⟨claim_C3.1 testDecimals testGetPool "KAIA" "USDT" 0 0 10000 50,
    fun result hok =>
      claim_C3.2 testDecimals testGetPool "KAIA" "USDT" 0 0 result hok⟩

/-- C5: after symbol resolution, every fee tier whose pool lookup or quote
calculation fails contributes nothing while every successful tier's candidate
is kept; if no tier yields a candidate the request fails with the
no-pools error, and otherwise the request succeeds with the best candidate
selected from exactly the accumulated list. -/
theorem claim_C5 (decimalsOf : String → ℕ)
    (getPool : String → String → ℕ → Option PoolInfo)
    (tokenIn tokenOut ta tb : String) (amountIn : ℚ) (amountInDecimals slippage : ℕ)
    (h1 : parseTokenSymbol tokenIn = some ta) (h2 : parseTokenSymbol tokenOut = some tb) :
    (∀ fee ∈ getOptimalFeeTiers (parseUnitsQ amountIn amountInDecimals) amountInDecimals,
      ∀ sq, tierCandidate decimalsOf getPool ta tb amountIn
          (parseUnitsQ amountIn amountInDecimals) fee = some sq →
        sq ∈ (getOptimalFeeTiers (parseUnitsQ amountIn amountInDecimals)
          amountInDecimals).filterMap
            (tierCandidate decimalsOf getPool ta tb amountIn
              (parseUnitsQ amountIn amountInDecimals))) ∧
    ((getOptimalFeeTiers (parseUnitsQ amountIn amountInDecimals)
        amountInDecimals).filterMap
          (tierCandidate decimalsOf getPool ta tb amountIn
            (parseUnitsQ amountIn amountInDecimals)) = [] ↔
      ∀ fee ∈ getOptimalFeeTiers (parseUnitsQ amountIn amountInDecimals) amountInDecimals,
        tierCandidate decimalsOf getPool ta tb amountIn
          (parseUnitsQ amountIn amountInDecimals) fee = none) ∧
    ((getOptimalFeeTiers (parseUnitsQ amountIn amountInDecimals)
        amountInDecimals).filterMap
          (tierCandidate decimalsOf getPool ta tb amountIn
            (parseUnitsQ amountIn amountInDecimals)) = [] →
      getSwapQuoteCore decimalsOf getPool tokenIn tokenOut amountIn amountInDecimals
        slippage = .error .noPools) ∧
    (∀ q rest,
      (getOptimalFeeTiers (parseUnitsQ amountIn amountInDecimals)
        amountInDecimals).filterMap
          (tierCandidate decimalsOf getPool ta tb amountIn
            (parseUnitsQ amountIn amountInDecimals)) = q :: rest →
      ∃ b, selectBestQuote (q :: rest) = .ok b ∧
        getSwapQuoteCore decimalsOf getPool tokenIn tokenOut amountIn amountInDecimals
            slippage
          = .ok { best := b
                  amountOut := applyMinimumOut b.amountOut slippage
                  selectedFeeTier := b.feeTier
                  tradeSizeCategory := categorizeTradeSize
                    (parseUnitsQ amountIn amountInDecimals) amountInDecimals }) := by
  refine ⟨?_, List.filterMap_eq_nil_iff, ?_, ?_⟩
  · intro fee hfee sq hsq
    exact List.mem_filterMap.mpr ⟨fee, hfee, hsq⟩
  · intro hnil
    rw [getSwapQuoteCore_resolved tokenIn tokenOut ta tb h1 h2, hnil]
  · intro q rest hc
    obtain ⟨b, hb⟩ := selectBestQuote_of_ne_nil (q :: rest) (by simp)
    refine ⟨b, hb, ?_⟩
    rw [getSwapQuoteCore_resolved tokenIn tokenOut ta tb h1 h2, hc]
    dsimp only
    rw [hb]

/-- Witness for C5 at the concrete KAIA/USDT fixture with slippage 50. -/
theorem claim_C5_witness :
    parseTokenSymbol "KAIA" = some "0x0000000000000000000000000000000000000000" ∧
    parseTokenSymbol "USDT" = some "0xd077a400968890eacc75cdc901f0356c943e4fdb" ∧
    ((∀ fee ∈ getOptimalFeeTiers (parseUnitsQ 0 0) 0,
      ∀ sq, tierCandidate testDecimals testGetPool
          "0x0000000000000000000000000000000000000000"
          "0xd077a400968890eacc75cdc901f0356c943e4fdb" 0 (parseUnitsQ 0 0) fee = some sq →
        sq ∈ (getOptimalFeeTiers (parseUnitsQ 0 0) 0).filterMap
          (tierCandidate testDecimals testGetPool
            "0x0000000000000000000000000000000000000000"
            "0xd077a400968890eacc75cdc901f0356c943e4fdb" 0 (parseUnitsQ 0 0))) ∧
    ((getOptimalFeeTiers (parseUnitsQ 0 0) 0).filterMap
        (tierCandidate testDecimals testGetPool
          "0x0000000000000000000000000000000000000000"
          "0xd077a400968890eacc75cdc901f0356c943e4fdb" 0 (parseUnitsQ 0 0)) = [] ↔
      ∀ fee ∈ getOptimalFeeTiers (parseUnitsQ 0 0) 0,
        tierCandidate testDecimals testGetPool
          "0x0000000000000000000000000000000000000000"
          "0xd077a400968890eacc75cdc901f0356c943e4fdb" 0 (parseUnitsQ 0 0) fee = none) ∧
    ((getOptimalFeeTiers (parseUnitsQ 0 0) 0).filterMap
        (tierCandidate testDecimals testGetPool
          "0x0000000000000000000000000000000000000000"
          "0xd077a400968890eacc75cdc901f0356c943e4fdb" 0 (parseUnitsQ 0 0)) = [] →
      getSwapQuoteCore testDecimals testGetPool "KAIA" "USDT" 0 0 50
        = .error .noPools) ∧
    (∀ q rest,
      (getOptimalFeeTiers (parseUnitsQ 0 0) 0).filterMap
        (tierCandidate testDecimals testGetPool
          "0x0000000000000000000000000000000000000000"
          "0xd077a400968890eacc75cdc901f0356c943e4fdb" 0 (parseUnitsQ 0 0)) = q :: rest →
      ∃ b, selectBestQuote (q :: rest) = .ok b ∧
        getSwapQuoteCore testDecimals testGetPool "KAIA" "USDT" 0 0 50
          = .ok { best := b
                  amountOut := applyMinimumOut b.amountOut 50
                  selectedFeeTier := b.feeTier
                  tradeSizeCategory := categorizeTradeSize (parseUnitsQ 0 0) 0 })) :=
  ⟨by decide, by decide,
    claim_C5 testDecimals testGetPool "KAIA" "USDT"
      "0x0000000000000000000000000000000000000000"
      "0xd077a400968890eacc75cdc901f0356c943e4fdb" 0 0 50 (by decide) (by decide)⟩

end KaiaMcp
